import Mathlib

/-!
# osv-scanner command-line entry point (`cmd/osv-scanner/main.go`)

A shallow embedding of `run`: the callbacks that `main.go` registers with the
command-line library (the `--format` flag `Action`, the app `Action`, the
`cli.VersionPrinter`) and the mapping of the error returned by `app.Run` to a
process exit status.

What is not declared in `main.go` is an input of the model:

* the scanning engine `osvscanner.DoScan`, the renderer `Reporter.PrintResult`
  and the texts of the two sentinel errors are the fields of `Env`;
* the outcome of the flag parsing of the library is the `CommandLine` given to `run`;
  how a slice flag turns the strings supplied for it into its values is
  `stringSliceValues`.

The order in which `app.Run` of the command-line library (urfave/cli v2) calls
these callbacks is written out in `appRun`: usage errors, the help flag, the
version flag, the `Action` of every supplied flag, the built-in help command,
the app `Action`. When the built-in help command fails, the library ends the
process with `os.Exit` inside `app.Run`: `app.Run` and `run` then never return,
which is the ending `exited`.

Effects are recorded in an event log; the variable `r` of `run`, a pointer that
is `nil` until a reporter is assigned to it, is an `Option Reporter`, and a
method call through it while it is `nil` makes the whole computation `none`.

Scope: errors are the two sentinels, values without a cause and `%w` wrappers
(no error type with an `Is` or `ExitCode` method of its own); Go strings are
Lean strings.
-/

namespace OsvScanner

/-! ## Go errors -/

/-- Go `error` values as `run` can observe them: the two sentinel values of
package `osvscanner` (compared by identity), errors without a cause
(`errors.New`, `fmt.Errorf` without `%w`), and errors produced by `fmt.Errorf`
with one `%w` verb, which keep the formatted text and the wrapped cause. -/
inductive GoError where
  | VulnerabilitiesFoundErr : GoError
  | NoPackagesFoundErr : GoError
  | errorString (s : String) : GoError
  | wrapError (msg : String) (err : GoError) : GoError
deriving DecidableEq, Repr

/-- The chain walk of `errors.Is(err, target)`: `err == target`, else the same
test on `Unwrap(err)`. Only `wrapError` has an `Unwrap`. -/
def errorsIs : GoError → GoError → Bool
  | .wrapError msg err, target =>
      if GoError.wrapError msg err = target then true else errorsIs err target
  | err, target => decide (err = target)

/-! ## Data passed between `run` and its collaborators -/

/-- An `*output.Reporter`: the mode string it was constructed with. The field
`id` tells two reporters apart: it is the position of the construction in the
event log. -/
structure Reporter where
  id : Nat
  format : String
deriving DecidableEq, Repr

/-- The literal `osvscanner.ScannerActions{...}` built by the app `Action`
(main.go, lines 99-107). -/
structure ScannerActions where
  LockfilePaths : List String
  SBOMPaths : List String
  DockerContainerNames : List String
  Recursive : Bool
  SkipGit : Bool
  ConfigOverridePath : String
  DirectoryPaths : List String
deriving DecidableEq, Repr

/-- The value `models.VulnerabilityResults` returned by `DoScan`; `run` only
hands it to `PrintResult`. -/
structure VulnerabilityResults where
  Results : List String
deriving DecidableEq, Repr

/-- Observable effects of `run`, in the order in which they happen. What
`DoScan` and `PrintResult` do inside (they may write through the reporter they
are given) is summed up in the one event of their call. -/
inductive Event where
  | NewReporter (r : Reporter) : Event
  | PrintText (r : Reporter) (msg : String) : Event
  | PrintError (r : Reporter) (msg : String) : Event
  | PrintResult (r : Reporter) (res : VulnerabilityResults) : Event
  | DoScan (actions : ScannerActions) (r : Reporter) : Event
deriving DecidableEq, Repr

/-- The mutable state of one call of `run`: the captured variable `r`
(`var r *output.Reporter`, initially `nil`) and the effects so far. -/
structure State where
  r : Option Reporter
  log : List Event
deriving DecidableEq, Repr

/-- How a call ends that may end the process: it returns a value, or
`os.Exit(status)` is called inside it and it never returns. -/
inductive Ending (α : Type) where
  | returned (value : α) : Ending α
  | exited (status : Int) : Ending α
deriving DecidableEq, Repr

/-- The collaborators of `run` that are declared outside `main.go`. -/
structure Env where
  /-- text of `osvscanner.VulnerabilitiesFoundErr.Error()` -/
  VulnerabilitiesFoundErrText : String
  /-- text of `osvscanner.NoPackagesFoundErr.Error()` -/
  NoPackagesFoundErrText : String
  /-- the scanning engine `osvscanner.DoScan(actions, r)` -/
  DoScan : ScannerActions → Reporter → VulnerabilityResults × Option GoError
  /-- the renderer `r.PrintResult(&vulnResult)` -/
  PrintResult : Reporter → VulnerabilityResults → Option GoError
  /-- the help shown for the help flag, on the given positional arguments;
  what it returns is returned by `app.Run` -/
  helpAction : List String → Option GoError
  /-- the built-in help command on the arguments that follow its name: `none`
  when help is shown and `app.Run` returns `nil`, `some status` when it fails
  (no help topic of that name, status 3): the library then prints the error
  and calls `os.Exit(status)` -/
  helpCommand : List String → Option Int

/-- The method `err.Error()`. -/
def GoError.Error (env : Env) : GoError → String
  | .VulnerabilitiesFoundErr => env.VulnerabilitiesFoundErrText
  | .NoPackagesFoundErr => env.NoPackagesFoundErrText
  | .errorString s => s
  | .wrapError msg _ => msg

/-- The flag values held by the `*cli.Context` after the command line was
parsed. `format` is the value supplied for `--format`/`-f`, `none` when the
flag was not supplied; `help` and `version` are the two flags the library adds
to every app. -/
structure Context where
  docker : List String
  lockfile : List String
  sbom : List String
  config : String
  format : Option String
  json : Bool
  skipGit : Bool
  recursive : Bool
  help : Bool
  version : Bool
  args : List String
deriving DecidableEq, Repr

/-- What the flag parsing of the library makes of `args`: either it rejects them
(unknown flag, missing value, ...) or it yields a context. -/
inductive CommandLine where
  | usageError (err : GoError) : CommandLine
  | parsed (ctx : Context) : CommandLine
deriving DecidableEq, Repr

/-! ## Package-level variables (main.go, lines 15-19) -/

def version : String := "dev"

def commit : String := "n/a"

def date : String := "n/a"

/-! ## Reporter operations -/

/-- Append an effect to the log. -/
def State.emit (s : State) (e : Event) : State :=
  { s with log := s.log ++ [e] }

/-- The statement `r = output.NewReporter(stdout, stderr, format)`. -/
def assignNewReporter (format : String) (s : State) : State :=
  let rep : Reporter := { id := s.log.length, format := format }
  { r := some rep, log := s.log ++ [Event.NewReporter rep] }

/-- The call `r.PrintText(msg)`; `none` when `r` is `nil`. -/
def PrintText (msg : String) (s : State) : Option State :=
  match s.r with
  | none => none
  | some rep => some (s.emit (Event.PrintText rep msg))

/-- The call `r.PrintError(msg)`; `none` when `r` is `nil`. -/
def PrintError (msg : String) (s : State) : Option State :=
  match s.r with
  | none => none
  | some rep => some (s.emit (Event.PrintError rep msg))

/-! ## The callbacks of `main.go` -/

/-- The function assigned to `cli.VersionPrinter` (main.go, lines 24-27);
`ctx.App.Version` is the package variable `version`. -/
def VersionPrinter (s : State) : Option State :=
  let s1 := assignNewReporter "" s
  PrintText ("osv-scanner version: " ++ version ++ "\ncommit: " ++ commit
    ++ "\nbuilt at: " ++ date ++ "\n") s1

/-- The text of the error built by the `--format` flag `Action` (line 67). -/
def unsupportedFormatText (s : String) : String :=
  "unsupported output format \"" ++ s ++ "\" - must be either \"table\" or \"json\""

/-- The `Action` of the `--format` flag (main.go, lines 65-71). -/
def formatAction (s : String) : Option GoError :=
  if s ≠ "table" ∧ s ≠ "json" then
    some (GoError.errorString (unsupportedFormatText s))
  else
    none

/-- The call `context.String("format")`: the supplied value, else the default
`Value: "table"` of the flag. -/
def Context.formatString (ctx : Context) : String :=
  ctx.format.getD "table"

/-- The format selection of the app `Action` (main.go, lines 91-95). -/
def selectFormat (ctx : Context) : String :=
  let format := ctx.formatString
  if ctx.json then "json" else format

/-- The `ScannerActions` literal of the app `Action` (main.go, lines 99-107). -/
def scannerActions (ctx : Context) : ScannerActions :=
  { LockfilePaths := ctx.lockfile
    SBOMPaths := ctx.sbom
    DockerContainerNames := ctx.docker
    Recursive := ctx.recursive
    SkipGit := ctx.skipGit
    ConfigOverridePath := ctx.config
    DirectoryPaths := ctx.args }

/-- The app `Action` (main.go, lines 90-114). -/
def appAction (env : Env) (ctx : Context) (s0 : State) :
    Option (Option GoError × State) := do
  let format := selectFormat ctx
  let s1 := assignNewReporter format s0
  let rep ← s1.r
  let (vulnResult, err) := env.DoScan (scannerActions ctx) rep
  let s2 := s1.emit (Event.DoScan (scannerActions ctx) rep)
  let rep2 ← s2.r
  let errPrint := env.PrintResult rep2 vulnResult
  let s3 := s2.emit (Event.PrintResult rep2 vulnResult)
  match errPrint with
  | some e =>
      pure (some (GoError.wrapError ("failed to write output: " ++ e.Error env) e), s3)
  | none => pure (err, s3)

/-! ## The `app.Run` of the command-line library -/

/-- The library runs the `Action` of every flag that was supplied, in the order
of `Flags`, and stops at the first error. Only `--format` has an `Action`. -/
def runFlagActions (ctx : Context) : Option GoError :=
  match ctx.format with
  | none => none
  | some s => formatAction s

/-- The names under which the library registers its built-in help command. -/
def helpCommandNames : List String := ["help", "h"]

/-- The built-in help command of the library, run on the arguments `rest` that
follow its name. When it fails the library hands the error to its
`HandleExitCoder`, which calls `os.Exit`: `app.Run` does not return. -/
def runHelpCommand (env : Env) (rest : List String) (s : State) :
    Ending (Option GoError) × State :=
  match env.helpCommand rest with
  | none => (Ending.returned none, s)
  | some status => (Ending.exited status, s)

/-- The control flow of `app.Run(args)` around the callbacks of `main.go`:
a command line that does not parse is returned as an error; the help flag and
then the version flag are served before anything else; then the flag
`Action`s run; then either the built-in help command (when the first positional
argument names it) or the app `Action`. -/
def appRun (env : Env) (cl : CommandLine) (s : State) :
    Option (Ending (Option GoError) × State) :=
  match cl with
  | .usageError err => some (Ending.returned (some err), s)
  | .parsed ctx =>
    if ctx.help then
      some (Ending.returned (env.helpAction ctx.args), s)
    else if ctx.version then
      (VersionPrinter s).map fun s1 => (Ending.returned none, s1)
    else
      match runFlagActions ctx with
      | some err => some (Ending.returned (some err), s)
      | none =>
        match ctx.args with
        | name :: rest =>
          if name ∈ helpCommandNames then some (runHelpCommand env rest s)
          else (appAction env ctx s).map fun p => (Ending.returned p.1, p.2)
        | [] => (appAction env ctx s).map fun p => (Ending.returned p.1, p.2)

/-! ## `run` -/

/-- The state in which `run` starts: `r` is `nil`, nothing has happened. -/
def State.init : State := { r := none, log := [] }

/-- The fallback `if r == nil { r = output.NewReporter(stdout, stderr, "") }`
(main.go, lines 118-120). -/
def ensureReporter (s : State) : State :=
  if s.r = none then assignNewReporter "" s else s

/-- The mapping of the result of `app.Run` to the exit status
(main.go, lines 117-135). -/
def exitStatus (env : Env) (res : Option GoError) (s1 : State) : Option (Int × State) :=
  match res with
  | none => some (0, s1)
  | some err =>
    let s2 := ensureReporter s1
    if errorsIs err GoError.VulnerabilitiesFoundErr then
      some (1, s2)
    else if errorsIs err GoError.NoPackagesFoundErr then
      (PrintError "No package sources found, --help for usage information.\n" s2).map
        fun s3 => (128, s3)
    else
      (PrintError (err.Error env ++ "\n") s2).map fun s3 => (127, s3)

/-- The function `run` (main.go, lines 21-136): how it ends and the final
state. It returns its exit status, unless the process was ended inside
`app.Run`; `none` if a method was called through a `nil` reporter. -/
def run (env : Env) (cl : CommandLine) : Option (Ending Int × State) :=
  match appRun env cl State.init with
  | none => none
  | some (Ending.exited status, s1) => some (Ending.exited status, s1)
  | some (Ending.returned res, s1) =>
    (exitStatus env res s1).map fun p => (Ending.returned p.1, p.2)

/-! ## Observations on the event log -/

/-- The diagnostics written with `PrintError`, in order. -/
def diagnostics (log : List Event) : List String :=
  log.filterMap fun e =>
    match e with
    | Event.PrintError _ msg => some msg
    | _ => none

/-- The reporters constructed with `NewReporter`, in order. -/
def reporters (log : List Event) : List Reporter :=
  log.filterMap fun e =>
    match e with
    | Event.NewReporter rep => some rep
    | _ => none

/-- The requests with which `DoScan` was invoked, in order. -/
def scans (log : List Event) : List ScannerActions :=
  log.filterMap fun e =>
    match e with
    | Event.DoScan actions _ => some actions
    | _ => none

/-- The results handed to `PrintResult`, in order. -/
def renderings (log : List Event) : List VulnerabilityResults :=
  log.filterMap fun e =>
    match e with
    | Event.PrintResult _ res => some res
    | _ => none

/-- The reporter the app `Action` constructs when it starts in state `s0`. -/
def actionReporter (ctx : Context) (s0 : State) : Reporter :=
  { id := s0.log.length, format := selectFormat ctx }

/-- What `DoScan` returns to the app `Action` started in state `s0`. -/
def scanOutcome (env : Env) (ctx : Context) (s0 : State) :
    VulnerabilityResults × Option GoError :=
  env.DoScan (scannerActions ctx) (actionReporter ctx s0)

/-- What `PrintResult` returns to the app `Action` started in state `s0`. -/
def renderOutcome (env : Env) (ctx : Context) (s0 : State) : Option GoError :=
  env.PrintResult (actionReporter ctx s0) (scanOutcome env ctx s0).1

/-- The Go call `strings.Split(v, ",")` on the characters of `v`: the pieces
between the commas (character 44), in order. -/
def splitAtCommas : List Char → List String
  | [] => [""]
  | c :: cs =>
    if c = Char.ofNat 44 then
      "" :: splitAtCommas cs
    else
      match splitAtCommas cs with
      | [] => [String.singleton c]
      | w :: ws => (String.singleton c ++ w) :: ws

/-- The values a `cli.StringSliceFlag` holds after parsing, from the strings
supplied for the flag (one per occurrence, without blanks around them): the
library splits every supplied string at its commas. -/
def stringSliceValues (supplied : List String) : List String :=
  supplied.flatMap fun v => splitAtCommas v.toList

/-- The library reaches the app `Action`: the command line parsed to `ctx`,
neither help nor version was asked for, the supplied `--format` (if any) passed
its `Action`, and the first positional argument is not the help command. -/
def reachesAction (ctx : Context) : Prop :=
  ctx.help = false ∧ ctx.version = false ∧ runFlagActions ctx = none ∧
    ∀ name ∈ ctx.args.head?, name ∉ helpCommandNames

instance (ctx : Context) : Decidable (reachesAction ctx) := by
  unfold reachesAction; infer_instance

/-! ## Concrete collaborators used in the examples -/

/-- A command line without flags and without positional arguments. -/
def emptyContext : Context :=
  { docker := [], lockfile := [], sbom := [], config := "", format := none,
    json := false, skipGit := false, recursive := false, help := false,
    version := false, args := [] }

/-- Collaborators for the examples: the scan ends with `scanErr` and an empty
result, rendering ends with `printErr`. -/
def exampleEnv (scanErr printErr : Option GoError) : Env :=
  { VulnerabilitiesFoundErrText := "vulnerabilities found"
    NoPackagesFoundErrText := "no packages found in scan"
    DoScan := fun _ _ => ({ Results := [] }, scanErr)
    PrintResult := fun _ _ => printErr
    helpAction := fun _ => none
    helpCommand := fun rest =>
      match rest with
      | [] => none
      | topic :: _ => if topic ∈ helpCommandNames then none else some 3 }

/-- A command line with repeated and unsorted values in every list. -/
def repeatedContext : Context :=
  { docker := ["img:2", "img:1", "img:2"], lockfile := ["b.lock", "a.lock", "b.lock"],
    sbom := ["s.json", "s.json"], config := "./cfg.toml", format := some "json",
    json := false, skipGit := true, recursive := true, help := false,
    version := false, args := ["./z", "./a", "./z"] }

/-! ## Helper lemmas -/

theorem errorsIs_wrapError_vuln (msg : String) (e : GoError) :
    errorsIs (GoError.wrapError msg e) GoError.VulnerabilitiesFoundErr
      = errorsIs e GoError.VulnerabilitiesFoundErr := by
  simp [errorsIs]

theorem errorsIs_wrapError_noPackages (msg : String) (e : GoError) :
    errorsIs (GoError.wrapError msg e) GoError.NoPackagesFoundErr
      = errorsIs e GoError.NoPackagesFoundErr := by
  simp [errorsIs]

/-- No chain holds both sentinels: each of them ends the chain it is in. -/
theorem errorsIs_sentinels_exclusive (e : GoError)
    (h : errorsIs e GoError.VulnerabilitiesFoundErr = true) :
    errorsIs e GoError.NoPackagesFoundErr = false := by
  induction e with
  | VulnerabilitiesFoundErr => simp [errorsIs]
  | NoPackagesFoundErr => simp [errorsIs] at h
  | errorString s => simp [errorsIs]
  | wrapError msg err ih =>
    rw [errorsIs_wrapError_vuln] at h
    rw [errorsIs_wrapError_noPackages]
    exact ih h

theorem formatAction_eq_none_iff (s : String) :
    formatAction s = none ↔ s = "table" ∨ s = "json" := by
  unfold formatAction
  by_cases h1 : s = "table"
  · simp [h1]
  · by_cases h2 : s = "json"
    · simp [h2]
    · simp [h1, h2]

theorem formatAction_of_unsupported (s : String) (h : s ≠ "table" ∧ s ≠ "json") :
    formatAction s = some (GoError.errorString (unsupportedFormatText s)) := by
  unfold formatAction
  rw [if_pos h]

/-- The app `Action` always returns; its result and its effects spelled out. -/
theorem appAction_eq (env : Env) (ctx : Context) (s0 : State) :
    appAction env ctx s0 = some
      (match renderOutcome env ctx s0 with
        | some e => some (GoError.wrapError ("failed to write output: " ++ e.Error env) e)
        | none => (scanOutcome env ctx s0).2,
       { r := some (actionReporter ctx s0),
         log := s0.log ++
           [Event.NewReporter (actionReporter ctx s0),
            Event.DoScan (scannerActions ctx) (actionReporter ctx s0),
            Event.PrintResult (actionReporter ctx s0) (scanOutcome env ctx s0).1] }) := by
  unfold appAction renderOutcome scanOutcome actionReporter
  simp only [assignNewReporter, State.emit, Option.bind_eq_bind, Option.some_bind,
    Option.pure_def, List.append_assoc, List.singleton_append]
  split <;> rename_i h <;> simp [h]

theorem appRun_of_reachesAction (env : Env) (ctx : Context) (s : State)
    (h : reachesAction ctx) :
    appRun env (.parsed ctx) s
      = (appAction env ctx s).map fun p => (Ending.returned p.1, p.2) := by
  obtain ⟨hh, hv, hf, ha⟩ := h
  unfold appRun
  simp only [hh, hv, hf, Bool.false_eq_true, if_false]
  cases hargs : ctx.args with
  | nil => rfl
  | cons name rest =>
    have : name ∉ helpCommandNames := ha name (by simp [hargs])
    simp [this]

theorem ensureReporter_of_none (s : State) (h : s.r = none) :
    ensureReporter s =
      { r := some { id := s.log.length, format := "" },
        log := s.log ++ [Event.NewReporter { id := s.log.length, format := "" }] } := by
  simp [ensureReporter, h, assignNewReporter]

theorem ensureReporter_of_some (s : State) (rep : Reporter) (h : s.r = some rep) :
    ensureReporter s = s := by
  simp [ensureReporter, h]

theorem ensureReporter_r (s : State) :
    (ensureReporter s).r = some (s.r.getD { id := s.log.length, format := "" }) := by
  cases h : s.r with
  | none => simp [ensureReporter, h, assignNewReporter]
  | some rep => simp [ensureReporter, h]

/-- The exit mapping always returns; its three branches spelled out. -/
theorem exitStatus_some (env : Env) (err : GoError) (s1 : State) :
    exitStatus env (some err) s1 = some
      (if errorsIs err GoError.VulnerabilitiesFoundErr then
        (1, ensureReporter s1)
      else if errorsIs err GoError.NoPackagesFoundErr then
        (128, (ensureReporter s1).emit
          (Event.PrintError (s1.r.getD { id := s1.log.length, format := "" })
            "No package sources found, --help for usage information.\n"))
      else
        (127, (ensureReporter s1).emit
          (Event.PrintError (s1.r.getD { id := s1.log.length, format := "" })
            (err.Error env ++ "\n")))) := by
  unfold exitStatus
  simp only [PrintError, ensureReporter_r]
  split <;> [rfl; (split <;> rfl)]

/-- The exit mapping when `app.Run` left a reporter in `r`: no other reporter
is constructed. -/
theorem exitStatus_some_of_reporter (env : Env) (err : GoError) (s1 : State)
    (rep : Reporter) (h : s1.r = some rep) :
    exitStatus env (some err) s1 = some
      (if errorsIs err GoError.VulnerabilitiesFoundErr then
        (1, s1)
      else if errorsIs err GoError.NoPackagesFoundErr then
        (128, s1.emit (Event.PrintError rep
          "No package sources found, --help for usage information.\n"))
      else
        (127, s1.emit (Event.PrintError rep (err.Error env ++ "\n")))) := by
  rw [exitStatus_some, ensureReporter_of_some s1 rep h, h]
  rfl

/-- When `app.Run` returns, `run` returns what the exit mapping yields. -/
theorem run_of_appRun_returned (env : Env) (cl : CommandLine) (res : Option GoError)
    (s1 : State) (code : Int) (st : State)
    (happ : appRun env cl State.init = some (Ending.returned res, s1))
    (hexit : exitStatus env res s1 = some (code, st)) :
    run env cl = some (Ending.returned code, st) := by
  simp [run, happ, hexit]

/-- When the process is ended inside `app.Run`, `run` does not return. -/
theorem run_of_appRun_exited (env : Env) (cl : CommandLine) (status : Int) (s1 : State)
    (happ : appRun env cl State.init = some (Ending.exited status, s1)) :
    run env cl = some (Ending.exited status, s1) := by
  simp [run, happ]

/-- A run that reached the app `Action` returns what the exit mapping yields
on the result and the state the `Action` left. -/
theorem run_of_reachesAction (env : Env) (ctx : Context) (h : reachesAction ctx)
    (code : Int) (st : State)
    (hexit : exitStatus env
      (match renderOutcome env ctx State.init with
        | some e => some (GoError.wrapError ("failed to write output: " ++ e.Error env) e)
        | none => (scanOutcome env ctx State.init).2)
      { r := some (actionReporter ctx State.init),
        log := [Event.NewReporter (actionReporter ctx State.init),
          Event.DoScan (scannerActions ctx) (actionReporter ctx State.init),
          Event.PrintResult (actionReporter ctx State.init)
            (scanOutcome env ctx State.init).1] } = some (code, st)) :
    run env (.parsed ctx) = some (Ending.returned code, st) := by
  refine run_of_appRun_returned env _ _ _ code st ?_ hexit
  rw [appRun_of_reachesAction env ctx State.init h, appAction_eq]
  simp [State.init]

/-- A run that serves the version flag. -/
theorem run_of_version (env : Env) (ctx : Context) (hh : ctx.help = false)
    (hv : ctx.version = true) :
    run env (.parsed ctx) = some (Ending.returned 0,
      { r := some { id := 0, format := "" },
        log := [Event.NewReporter { id := 0, format := "" },
          Event.PrintText { id := 0, format := "" }
            ("osv-scanner version: " ++ version ++ "\ncommit: " ++ commit
              ++ "\nbuilt at: " ++ date ++ "\n")] }) := by
  simp [run, appRun, hh, hv, VersionPrinter, PrintText, assignNewReporter, exitStatus,
    State.emit, State.init]

/-- Whatever `app.Run` does, it ends without a call through a `nil` reporter,
it prints no diagnostic, and it leaves `r` either `nil` with nothing done or set
to the only reporter constructed. It ends the process itself only in the
built-in help command, and then nothing has been done. -/
theorem appRun_init (env : Env) (cl : CommandLine) :
    ∃ e s1, appRun env cl State.init = some (e, s1) ∧
      diagnostics s1.log = [] ∧
      ((s1.r = none ∧ s1.log = []) ∨ (∃ rep, s1.r = some rep ∧ reporters s1.log = [rep])) ∧
      (∀ status, e = Ending.exited status →
        s1 = State.init ∧ ∃ ctx name rest, cl = .parsed ctx ∧
          ctx.help = false ∧ ctx.version = false ∧ runFlagActions ctx = none ∧
          ctx.args = name :: rest ∧ name ∈ helpCommandNames ∧
          env.helpCommand rest = some status) := by
  cases cl with
  | usageError err =>
    exact ⟨_, State.init, rfl, rfl, Or.inl ⟨rfl, rfl⟩, fun _ h => by simp at h⟩
  | parsed ctx =>
    unfold appRun
    by_cases hh : ctx.help = true
    · exact ⟨Ending.returned (env.helpAction ctx.args), State.init, by simp [hh], rfl,
        Or.inl ⟨rfl, rfl⟩, fun _ h => by simp at h⟩
    · by_cases hv : ctx.version = true
      · refine ⟨Ending.returned none, _,
          by simp [hh, hv, VersionPrinter, PrintText, assignNewReporter]; rfl, ?_, ?_,
          fun _ h => by simp at h⟩
        · simp [diagnostics, State.emit, State.init]
        · right; simp [reporters, State.emit, State.init]
      · simp only [hh, hv, Bool.false_eq_true, if_false]
        cases hf : runFlagActions ctx with
        | some err =>
          exact ⟨_, State.init, rfl, rfl, Or.inl ⟨rfl, rfl⟩, fun _ h => by simp at h⟩
        | none =>
          have key : ∃ e s1,
              (appAction env ctx State.init).map (fun p => (Ending.returned p.1, p.2))
                = some (e, s1) ∧
              diagnostics s1.log = [] ∧
              ((s1.r = none ∧ s1.log = []) ∨
                (∃ rep, s1.r = some rep ∧ reporters s1.log = [rep])) ∧
              (∀ status, e = Ending.exited status →
                s1 = State.init ∧ ∃ ctx2 name rest, CommandLine.parsed ctx = .parsed ctx2 ∧
                  ctx2.help = false ∧ ctx2.version = false ∧ runFlagActions ctx2 = none ∧
                  ctx2.args = name :: rest ∧ name ∈ helpCommandNames ∧
                  env.helpCommand rest = some status) := by
            rw [appAction_eq env ctx State.init]
            refine ⟨_, _, rfl, ?_, ?_, fun _ h => by simp at h⟩
            · simp [diagnostics, State.init]
            · right; simp [reporters, State.init]
          cases hargs : ctx.args with
          | nil => simpa using key
          | cons name rest =>
            by_cases hn : name ∈ helpCommandNames
            · simp only [hn, if_true]
              cases hc : env.helpCommand rest with
              | none =>
                exact ⟨Ending.returned none, State.init, by simp [runHelpCommand, hc], rfl,
                  Or.inl ⟨rfl, rfl⟩, fun _ h => by simp at h⟩
              | some status =>
                refine ⟨Ending.exited status, State.init, by simp [runHelpCommand, hc], rfl,
                  Or.inl ⟨rfl, rfl⟩, ?_⟩
                intro st2 h2
                obtain rfl : status = st2 := by simpa using h2
                exact ⟨rfl, ctx, name, rest, rfl, by simpa using hh, by simpa using hv, hf,
                  hargs, hn, hc⟩
            · simpa [hn] using key

/-- The exit mapping always returns and invokes no scan. -/
theorem exitStatus_scans (env : Env) (res : Option GoError) (s1 : State) :
    ∃ code st, exitStatus env res s1 = some (code, st) ∧ scans st.log = scans s1.log := by
  cases res with
  | none => exact ⟨0, s1, rfl, rfl⟩
  | some err =>
    rw [exitStatus_some]
    cases hr : s1.r with
    | none =>
      cases errorsIs err GoError.VulnerabilitiesFoundErr <;>
        cases errorsIs err GoError.NoPackagesFoundErr <;>
        simp only [Bool.false_eq_true, if_false, if_true] <;>
        exact ⟨_, _, rfl, by
          simp [ensureReporter_of_none s1 hr, scans, State.emit, List.filterMap_append]⟩
    | some rep =>
      cases errorsIs err GoError.VulnerabilitiesFoundErr <;>
        cases errorsIs err GoError.NoPackagesFoundErr <;>
        simp only [Bool.false_eq_true, if_false, if_true] <;>
        exact ⟨_, _, rfl, by
          simp [ensureReporter_of_some s1 rep hr, scans, State.emit, List.filterMap_append]⟩

/-- An invocation that does not reach the app `Action` invokes no scan inside
`app.Run`. -/
theorem appRun_scans_of_not_reachesAction (env : Env) (ctx : Context)
    (h : ¬ reachesAction ctx) :
    ∃ e s1, appRun env (.parsed ctx) State.init = some (e, s1) ∧ scans s1.log = [] := by
  unfold appRun
  by_cases hh : ctx.help = true
  · exact ⟨Ending.returned (env.helpAction ctx.args), State.init, by simp [hh], rfl⟩
  · by_cases hv : ctx.version = true
    · refine ⟨Ending.returned none, _,
        by simp [hh, hv, VersionPrinter, PrintText, assignNewReporter]; rfl, ?_⟩
      simp [scans, State.emit, State.init]
    · simp only [hh, hv, Bool.false_eq_true, if_false]
      cases hf : runFlagActions ctx with
      | some err => exact ⟨_, State.init, rfl, rfl⟩
      | none =>
        cases hargs : ctx.args with
        | nil =>
          exact absurd ⟨by simpa using hh, by simpa using hv, hf, by simp [hargs]⟩ h
        | cons name rest =>
          by_cases hn : name ∈ helpCommandNames
          · refine ⟨(runHelpCommand env rest State.init).1, State.init, ?_, rfl⟩
            simp only [hn, if_true]
            unfold runHelpCommand
            cases env.helpCommand rest <;> rfl
          · refine absurd ⟨by simpa using hh, by simpa using hv, hf, ?_⟩ h
            intro n hmem
            have : n = name := by simpa [hargs] using hmem.symm
            rw [this]; exact hn

theorem mem_diagnostics_of_mem (log : List Event) (rep : Reporter) (msg : String)
    (h : Event.PrintError rep msg ∈ log) : msg ∈ diagnostics log := by
  unfold diagnostics
  rw [List.mem_filterMap]
  exact ⟨_, h, rfl⟩

/-! ## C1: rejection of an unsupported `--format` -/

/-- C1 (as stated, refuted): the claim lets any other flag accompany an
unsupported `--format`. With `--format=xml --version` the version flag is
served first: the `--format` check never runs, `run` returns 0 and not 127. -/
theorem C1_counterexample :
    ("xml" ≠ "table" ∧ "xml" ≠ "json") ∧
    ({ emptyContext with format := some "xml", version := true } : Context).format
      = some "xml" ∧
    run (exampleEnv none none)
        (.parsed { emptyContext with format := some "xml", version := true })
      = some (Ending.returned 0,
          { r := some { id := 0, format := "" },
            log := [Event.NewReporter { id := 0, format := "" },
              Event.PrintText { id := 0, format := "" }
                "osv-scanner version: dev\ncommit: n/a\nbuilt at: n/a\n"] }) ∧
    ¬ (∀ (env : Env) (ctx : Context) (s : String), s ≠ "table" ∧ s ≠ "json" →
        ctx.format = some s →
        ∃ st, run env (.parsed ctx) = some (Ending.returned 127, st)) := by
  refine ⟨by decide, rfl, by decide, ?_⟩
  intro h
  obtain ⟨st, hst⟩ := h (exampleEnv none none)
    { emptyContext with format := some "xml", version := true } "xml" (by decide) rfl
  revert hst
  have hrun : run (exampleEnv none none)
      (.parsed { emptyContext with format := some "xml", version := true })
      = some (Ending.returned 0,
          { r := some { id := 0, format := "" },
            log := [Event.NewReporter { id := 0, format := "" },
              Event.PrintText { id := 0, format := "" }
                "osv-scanner version: dev\ncommit: n/a\nbuilt at: n/a\n"] }) := by decide
  rw [hrun]
  simp

/-- C1 (amended): for every string `s` other than "table" and "json", an
invocation that supplies `--format s` never invokes `DoScan`, whatever the other
flags and arguments; when moreover neither help nor version is asked for, the
`--format` check fails with the unsupported-format error, nothing else has
happened by then, and `run` returns 127. The validator accepts exactly "table"
and "json". -/
theorem C1_unsupported_format_rejected (env : Env) (ctx : Context) (s : String)
    (hs : s ≠ "table" ∧ s ≠ "json") (hf : ctx.format = some s) :
    (∃ code st, run env (.parsed ctx) = some (Ending.returned code, st) ∧
      scans st.log = []) ∧
    (ctx.help = false → ctx.version = false →
      appRun env (.parsed ctx) State.init
        = some (Ending.returned (some (GoError.errorString (unsupportedFormatText s))),
            State.init) ∧
      ∃ st, run env (.parsed ctx) = some (Ending.returned 127, st) ∧ scans st.log = []) ∧
    (∀ t : String, formatAction t = none ↔ t = "table" ∨ t = "json") := by
  have hflag : runFlagActions ctx = some (GoError.errorString (unsupportedFormatText s)) := by
    simp [runFlagActions, hf, formatAction_of_unsupported s hs]
  have hexit : ∀ (res : Option GoError),
      ∃ code st, exitStatus env res State.init = some (code, st) ∧ scans st.log = [] := by
    intro res
    obtain ⟨code, st, h1, h2⟩ := exitStatus_scans env res State.init
    exact ⟨code, st, h1, by rw [h2]; rfl⟩
  have hfail : ctx.help = false → ctx.version = false →
      appRun env (.parsed ctx) State.init
        = some (Ending.returned (some (GoError.errorString (unsupportedFormatText s))),
            State.init) := by
    intro hh hv
    simp [appRun, hh, hv, hflag]
  refine ⟨?_, ?_, formatAction_eq_none_iff⟩
  · by_cases hh : ctx.help = true
    · obtain ⟨code, st, h1, h2⟩ := hexit (env.helpAction ctx.args)
      exact ⟨code, st,
        run_of_appRun_returned env _ _ State.init code st (by simp [appRun, hh]) h1, h2⟩
    · by_cases hv : ctx.version = true
      · exact ⟨0, _, run_of_version env ctx (by simpa using hh) hv, by simp [scans]⟩
      · obtain ⟨code, st, h1, h2⟩ :=
          hexit (some (GoError.errorString (unsupportedFormatText s)))
        exact ⟨code, st,
          run_of_appRun_returned env _ _ State.init code st
            (hfail (by simpa using hh) (by simpa using hv)) h1, h2⟩
  · intro hh hv
    refine ⟨hfail hh hv, ?_⟩
    have hex : exitStatus env (some (GoError.errorString (unsupportedFormatText s)))
        State.init = some (127, (ensureReporter State.init).emit
          (Event.PrintError (State.init.r.getD { id := State.init.log.length, format := "" })
            ((GoError.errorString (unsupportedFormatText s)).Error env ++ "\n"))) := by
      rw [exitStatus_some]
      simp [errorsIs]
    exact ⟨_, run_of_appRun_returned env _ _ State.init 127 _ (hfail hh hv) hex, by
      simp [ensureReporter, State.init, assignNewReporter, scans, State.emit]⟩

/-- C1 (amended), applied to `--format=xml` with no other flag: validation
fails, `run` returns 127 and `DoScan` is not invoked. -/
theorem C1_unsupported_format_rejected_witness :
    ("xml" ≠ "table" ∧ "xml" ≠ "json") ∧
    ({ emptyContext with format := some "xml" } : Context).format = some "xml" ∧
    ({ emptyContext with format := some "xml" } : Context).help = false ∧
    ({ emptyContext with format := some "xml" } : Context).version = false ∧
    appRun (exampleEnv none none) (.parsed { emptyContext with format := some "xml" })
        State.init
      = some (Ending.returned (some (GoError.errorString (unsupportedFormatText "xml"))),
          State.init) ∧
    ∃ st, run (exampleEnv none none)
      (.parsed { emptyContext with format := some "xml" }) = some (Ending.returned 127, st) ∧
      scans st.log = [] :=
  ⟨by decide, rfl, rfl, rfl,
    (C1_unsupported_format_rejected (exampleEnv none none)
      { emptyContext with format := some "xml" } "xml" (by decide) rfl).2.1 rfl rfl⟩

/-! ## C2: the `--json` flag and the mode of the reporter -/

/-- C2 (as stated, refuted): the claim covers every value of `--format`. With
`--json --format=xml` the `--format` check fails before the app `Action`: the
only reporter constructed for the invocation is the fallback one, with mode ""
and not "json". -/
theorem C2_counterexample :
    ({ emptyContext with format := some "xml", json := true } : Context).json = true ∧
    run (exampleEnv none none)
        (.parsed { emptyContext with format := some "xml", json := true })
      = some (Ending.returned 127,
          { r := some { id := 0, format := "" },
            log := [Event.NewReporter { id := 0, format := "" },
              Event.PrintError { id := 0, format := "" }
                "unsupported output format \"xml\" - must be either \"table\" or \"json\"\n"] }) ∧
    ¬ (∀ (env : Env) (ctx : Context), ctx.json = true →
        ∀ code st, run env (.parsed ctx) = some (Ending.returned code, st) →
          ∀ rep ∈ reporters st.log, rep.format = "json") := by
  have hrun : run (exampleEnv none none)
      (.parsed { emptyContext with format := some "xml", json := true })
      = some (Ending.returned 127,
          { r := some { id := 0, format := "" },
            log := [Event.NewReporter { id := 0, format := "" },
              Event.PrintError { id := 0, format := "" }
                "unsupported output format \"xml\" - must be either \"table\" or \"json\"\n"] }) := by
    decide
  refine ⟨rfl, hrun, ?_⟩
  intro h
  have h1 := h (exampleEnv none none)
    { emptyContext with format := some "xml", json := true } rfl _ _ hrun
    { id := 0, format := "" } (by simp [reporters])
  exact absurd h1 (by decide)

/-- C2 (amended): when `--json` is true the format selection of the app `Action`
yields "json" whatever `context.String("format")` holds, and the `Action` sets
`r` to a reporter of mode "json"; in every invocation that reaches the app
`Action` (the command line parses, neither help nor version is asked for, and
`--format` is absent, "table" or "json") the only reporter constructed by `run`
has mode "json". -/
theorem C2_json_flag_selects_json (env : Env) (ctx : Context) (hj : ctx.json = true) :
    selectFormat ctx = "json" ∧
    (∀ s0 : State, ∃ res s1, appAction env ctx s0 = some (res, s1) ∧
      s1.r = some { id := s0.log.length, format := "json" } ∧
      reporters s1.log = reporters s0.log ++ [{ id := s0.log.length, format := "json" }]) ∧
    (reachesAction ctx → ∃ code st, run env (.parsed ctx) = some (Ending.returned code, st) ∧
      reporters st.log = [{ id := 0, format := "json" }]) := by
  have hsel : selectFormat ctx = "json" := by simp [selectFormat, hj]
  refine ⟨hsel, ?_, ?_⟩
  · intro s0
    refine ⟨_, _, appAction_eq env ctx s0, ?_, ?_⟩
    · simp [actionReporter, hsel]
    · simp [reporters, actionReporter, hsel, List.filterMap_append]
  · intro hreach
    cases hres : (match renderOutcome env ctx State.init with
        | some e => some (GoError.wrapError ("failed to write output: " ++ e.Error env) e)
        | none => (scanOutcome env ctx State.init).2) with
    | none =>
      exact ⟨0, _, run_of_reachesAction env ctx hreach 0 _ (by rw [hres]; rfl),
        by simp [reporters, actionReporter, hsel, State.init]⟩
    | some err =>
      have hex := exitStatus_some_of_reporter env err
        { r := some (actionReporter ctx State.init),
          log := [Event.NewReporter (actionReporter ctx State.init),
            Event.DoScan (scannerActions ctx) (actionReporter ctx State.init),
            Event.PrintResult (actionReporter ctx State.init)
              (scanOutcome env ctx State.init).1] }
        (actionReporter ctx State.init) rfl
      rw [← hres] at hex
      cases hV : errorsIs err GoError.VulnerabilitiesFoundErr <;>
        cases hN : errorsIs err GoError.NoPackagesFoundErr <;>
        simp only [hV, hN, Bool.false_eq_true, if_false, if_true] at hex <;>
        exact ⟨_, _, run_of_reachesAction env ctx hreach _ _ hex, by
          simp [State.init, reporters, State.emit, actionReporter, hsel]⟩

/-- C2 (amended), applied to `--json --format=table`. -/
theorem C2_json_flag_selects_json_witness :
    ({ emptyContext with format := some "table", json := true } : Context).json = true ∧
    reachesAction { emptyContext with format := some "table", json := true } ∧
    selectFormat { emptyContext with format := some "table", json := true } = "json" ∧
    ∃ code st, run (exampleEnv none none)
        (.parsed { emptyContext with format := some "table", json := true })
        = some (Ending.returned code, st) ∧
      reporters st.log = [{ id := 0, format := "json" }] :=
  ⟨rfl, by decide,
    (C2_json_flag_selects_json (exampleEnv none none)
      { emptyContext with format := some "table", json := true } rfl).1,
    (C2_json_flag_selects_json (exampleEnv none none)
      { emptyContext with format := some "table", json := true } rfl).2.2 (by decide)⟩

/-! ## C3: `VulnerabilitiesFoundErr` from the scan -/

/-- C3 (as stated, refuted): the claim holds for every scan that ends with
`VulnerabilitiesFoundErr`. When rendering the result then fails, the app
`Action` returns the rendering failure instead of the error of the scan: `run`
returns 127 and prints a diagnostic. -/
theorem C3_counterexample :
    (scanOutcome (exampleEnv (some GoError.VulnerabilitiesFoundErr)
        (some (GoError.errorString "write failed"))) emptyContext State.init).2
      = some GoError.VulnerabilitiesFoundErr ∧
    run (exampleEnv (some GoError.VulnerabilitiesFoundErr)
        (some (GoError.errorString "write failed"))) (.parsed emptyContext)
      = some (Ending.returned 127,
          { r := some { id := 0, format := "table" },
            log := [Event.NewReporter { id := 0, format := "table" },
              Event.DoScan (scannerActions emptyContext) { id := 0, format := "table" },
              Event.PrintResult { id := 0, format := "table" } { Results := [] },
              Event.PrintError { id := 0, format := "table" }
                "failed to write output: write failed\n"] }) := by
  exact ⟨rfl, by decide⟩

/-- C3 (amended): in an invocation that reaches the app `Action`, if `DoScan`
returns an error that is `VulnerabilitiesFoundErr` and rendering the result
succeeds, `run` returns 1 and `PrintError` is not called. -/
theorem C3_vulnerabilities_found_exit_1 (env : Env) (ctx : Context) (e : GoError)
    (hreach : reachesAction ctx)
    (hscan : (scanOutcome env ctx State.init).2 = some e)
    (hvuln : errorsIs e GoError.VulnerabilitiesFoundErr = true)
    (hrender : renderOutcome env ctx State.init = none) :
    ∃ st, run env (.parsed ctx) = some (Ending.returned 1, st) ∧
      diagnostics st.log = [] := by
  have hex := exitStatus_some_of_reporter env e
    { r := some (actionReporter ctx State.init),
      log := [Event.NewReporter (actionReporter ctx State.init),
        Event.DoScan (scannerActions ctx) (actionReporter ctx State.init),
        Event.PrintResult (actionReporter ctx State.init)
          (scanOutcome env ctx State.init).1] }
    (actionReporter ctx State.init) rfl
  simp only [hvuln, if_true] at hex
  have hrun := run_of_reachesAction env ctx hreach _ _
    (by rw [hrender]; simp only [hscan]; exact hex)
  exact ⟨_, hrun, by simp [diagnostics]⟩

/-- C3 (amended), applied to a scan without flags that finds vulnerabilities. -/
theorem C3_vulnerabilities_found_exit_1_witness :
    reachesAction emptyContext ∧
    (scanOutcome (exampleEnv (some GoError.VulnerabilitiesFoundErr) none)
        emptyContext State.init).2 = some GoError.VulnerabilitiesFoundErr ∧
    errorsIs GoError.VulnerabilitiesFoundErr GoError.VulnerabilitiesFoundErr = true ∧
    renderOutcome (exampleEnv (some GoError.VulnerabilitiesFoundErr) none)
        emptyContext State.init = none ∧
    ∃ st, run (exampleEnv (some GoError.VulnerabilitiesFoundErr) none)
        (.parsed emptyContext) = some (Ending.returned 1, st) ∧ diagnostics st.log = [] :=
  ⟨by decide, rfl, by decide, rfl,
    C3_vulnerabilities_found_exit_1 (exampleEnv (some GoError.VulnerabilitiesFoundErr) none)
      emptyContext GoError.VulnerabilitiesFoundErr (by decide) rfl (by decide) rfl⟩

/-! ## C4: `NoPackagesFoundErr` from the scan -/

/-- C4 (as stated, refuted): the claim holds for every scan that ends with
`NoPackagesFoundErr`, in particular without flags and arguments. When rendering
the result then fails, `run` returns 127 and the diagnostic is the rendering
failure, not the usage hint. -/
theorem C4_counterexample :
    (scanOutcome (exampleEnv (some GoError.NoPackagesFoundErr)
        (some (GoError.errorString "write failed"))) emptyContext State.init).2
      = some GoError.NoPackagesFoundErr ∧
    run (exampleEnv (some GoError.NoPackagesFoundErr)
        (some (GoError.errorString "write failed"))) (.parsed emptyContext)
      = some (Ending.returned 127,
          { r := some { id := 0, format := "table" },
            log := [Event.NewReporter { id := 0, format := "table" },
              Event.DoScan (scannerActions emptyContext) { id := 0, format := "table" },
              Event.PrintResult { id := 0, format := "table" } { Results := [] },
              Event.PrintError { id := 0, format := "table" }
                "failed to write output: write failed\n"] }) := by
  exact ⟨rfl, by decide⟩

/-- C4 (amended): in an invocation that reaches the app `Action`, if `DoScan`
returns an error that is `NoPackagesFoundErr` and rendering the result succeeds,
`run` returns 128 and the one diagnostic written is
"No package sources found, --help for usage information.\n"; this covers the
invocation without flags and without positional arguments. -/
theorem C4_no_packages_found_exit_128 (env : Env) (ctx : Context) (e : GoError)
    (hreach : reachesAction ctx)
    (hscan : (scanOutcome env ctx State.init).2 = some e)
    (hnone : errorsIs e GoError.NoPackagesFoundErr = true)
    (hrender : renderOutcome env ctx State.init = none) :
    reachesAction emptyContext ∧
    ∃ st, run env (.parsed ctx) = some (Ending.returned 128, st) ∧
      diagnostics st.log = ["No package sources found, --help for usage information.\n"] := by
  refine ⟨by decide, ?_⟩
  have hv : errorsIs e GoError.VulnerabilitiesFoundErr = false := by
    cases h : errorsIs e GoError.VulnerabilitiesFoundErr with
    | false => rfl
    | true => rw [errorsIs_sentinels_exclusive e h] at hnone; exact absurd hnone (by decide)
  have hex := exitStatus_some_of_reporter env e
    { r := some (actionReporter ctx State.init),
      log := [Event.NewReporter (actionReporter ctx State.init),
        Event.DoScan (scannerActions ctx) (actionReporter ctx State.init),
        Event.PrintResult (actionReporter ctx State.init)
          (scanOutcome env ctx State.init).1] }
    (actionReporter ctx State.init) rfl
  simp only [hv, hnone, if_true, Bool.false_eq_true, if_false] at hex
  have hrun := run_of_reachesAction env ctx hreach _ _
    (by rw [hrender]; simp only [hscan]; exact hex)
  exact ⟨_, hrun, by simp [diagnostics, State.emit]⟩

/-- C4 (amended), applied to the invocation without flags and arguments. -/
theorem C4_no_packages_found_exit_128_witness :
    reachesAction emptyContext ∧
    (scanOutcome (exampleEnv (some GoError.NoPackagesFoundErr) none)
        emptyContext State.init).2 = some GoError.NoPackagesFoundErr ∧
    errorsIs GoError.NoPackagesFoundErr GoError.NoPackagesFoundErr = true ∧
    renderOutcome (exampleEnv (some GoError.NoPackagesFoundErr) none)
        emptyContext State.init = none ∧
    ∃ st, run (exampleEnv (some GoError.NoPackagesFoundErr) none)
        (.parsed emptyContext) = some (Ending.returned 128, st) ∧
      diagnostics st.log = ["No package sources found, --help for usage information.\n"] :=
  ⟨by decide, rfl, by decide, rfl,
    (C4_no_packages_found_exit_128 (exampleEnv (some GoError.NoPackagesFoundErr) none)
      emptyContext GoError.NoPackagesFoundErr (by decide) rfl (by decide) rfl).2⟩

/-! ## C5: failure of rendering -/

/-- C5 (as stated, refuted): the claim holds for every error returned by
rendering. The rendering failure is wrapped with `%w`, so `errors.Is` still sees
its cause: when the renderer returns `VulnerabilitiesFoundErr` itself `run`
returns 1 and prints nothing, and when it returns `NoPackagesFoundErr` `run`
returns 128 and prints the usage hint. -/
theorem C5_counterexample :
    renderOutcome (exampleEnv none (some GoError.VulnerabilitiesFoundErr))
        emptyContext State.init = some GoError.VulnerabilitiesFoundErr ∧
    run (exampleEnv none (some GoError.VulnerabilitiesFoundErr)) (.parsed emptyContext)
      = some (Ending.returned 1,
          { r := some { id := 0, format := "table" },
            log := [Event.NewReporter { id := 0, format := "table" },
              Event.DoScan (scannerActions emptyContext) { id := 0, format := "table" },
              Event.PrintResult { id := 0, format := "table" } { Results := [] }] }) ∧
    renderOutcome (exampleEnv none (some GoError.NoPackagesFoundErr))
        emptyContext State.init = some GoError.NoPackagesFoundErr ∧
    run (exampleEnv none (some GoError.NoPackagesFoundErr)) (.parsed emptyContext)
      = some (Ending.returned 128,
          { r := some { id := 0, format := "table" },
            log := [Event.NewReporter { id := 0, format := "table" },
              Event.DoScan (scannerActions emptyContext) { id := 0, format := "table" },
              Event.PrintResult { id := 0, format := "table" } { Results := [] },
              Event.PrintError { id := 0, format := "table" }
                "No package sources found, --help for usage information.\n"] }) := by
  exact ⟨rfl, by decide, rfl, by decide⟩

/-- C5 (amended): in an invocation that reaches the app `Action`, for every scan
outcome, if rendering fails with an error whose chain holds neither
`VulnerabilitiesFoundErr` nor `NoPackagesFoundErr`, then `run` returns 127 and
the one diagnostic written is "failed to write output: " followed by the text of
the rendering error and a newline, whatever error the scan returned. -/
theorem C5_render_failure_exit_127 (env : Env) (ctx : Context) (e : GoError)
    (hreach : reachesAction ctx)
    (hrender : renderOutcome env ctx State.init = some e)
    (hv : errorsIs e GoError.VulnerabilitiesFoundErr = false)
    (hn : errorsIs e GoError.NoPackagesFoundErr = false) :
    ∃ st, run env (.parsed ctx) = some (Ending.returned 127, st) ∧
      diagnostics st.log = ["failed to write output: " ++ e.Error env ++ "\n"] := by
  have hex := exitStatus_some_of_reporter env
    (GoError.wrapError ("failed to write output: " ++ e.Error env) e)
    { r := some (actionReporter ctx State.init),
      log := [Event.NewReporter (actionReporter ctx State.init),
        Event.DoScan (scannerActions ctx) (actionReporter ctx State.init),
        Event.PrintResult (actionReporter ctx State.init)
          (scanOutcome env ctx State.init).1] }
    (actionReporter ctx State.init) rfl
  simp only [errorsIs_wrapError_vuln, errorsIs_wrapError_noPackages, hv, hn,
    Bool.false_eq_true, if_false] at hex
  have hrun := run_of_reachesAction env ctx hreach _ _ (by rw [hrender]; exact hex)
  exact ⟨_, hrun, by simp [diagnostics, State.emit, GoError.Error]⟩

/-- C5 (amended), applied to a scan that found vulnerabilities and whose result
could not be written. -/
theorem C5_render_failure_exit_127_witness :
    reachesAction emptyContext ∧
    renderOutcome (exampleEnv (some GoError.VulnerabilitiesFoundErr)
        (some (GoError.errorString "write failed"))) emptyContext State.init
      = some (GoError.errorString "write failed") ∧
    errorsIs (GoError.errorString "write failed") GoError.VulnerabilitiesFoundErr = false ∧
    errorsIs (GoError.errorString "write failed") GoError.NoPackagesFoundErr = false ∧
    ∃ st, run (exampleEnv (some GoError.VulnerabilitiesFoundErr)
        (some (GoError.errorString "write failed"))) (.parsed emptyContext)
        = some (Ending.returned 127, st) ∧
      diagnostics st.log = ["failed to write output: " ++
        (GoError.errorString "write failed").Error
          (exampleEnv (some GoError.VulnerabilitiesFoundErr)
            (some (GoError.errorString "write failed"))) ++ "\n"] :=
  ⟨by decide, rfl, by decide, by decide,
    C5_render_failure_exit_127
      (exampleEnv (some GoError.VulnerabilitiesFoundErr)
        (some (GoError.errorString "write failed")))
      emptyContext (GoError.errorString "write failed") (by decide) rfl (by decide)
      (by decide)⟩

/-! ## C6: the exit status of every outcome -/

/-- C6: whenever `app.Run` returns, `run` returns. It returns 0 exactly when
`app.Run` returned no error, and then no diagnostic is written. An error
returned by `app.Run` is mapped to one status: 1 when it is
`VulnerabilitiesFoundErr` (no diagnostic), 128 when it is `NoPackagesFoundErr`
(one diagnostic, the usage hint), 127 otherwise (one diagnostic, the text of the
error and a newline). `app.Run` fails to return only when the built-in help
command of the library fails: the library then ends the process itself, before
anything was done, and `run` maps and prints nothing. -/
theorem C6_exit_status_mapping (env : Env) (cl : CommandLine) :
    (∃ status ctx name rest,
      cl = .parsed ctx ∧ ctx.help = false ∧ ctx.version = false ∧
      runFlagActions ctx = none ∧ ctx.args = name :: rest ∧ name ∈ helpCommandNames ∧
      env.helpCommand rest = some status ∧
      appRun env cl State.init = some (Ending.exited status, State.init) ∧
      run env cl = some (Ending.exited status, State.init)) ∨
    (∃ res s1 code st,
      appRun env cl State.init = some (Ending.returned res, s1) ∧
      run env cl = some (Ending.returned code, st) ∧
      (code = 0 ↔ res = none) ∧
      (res = none → diagnostics st.log = []) ∧
      (∀ err, res = some err →
        (errorsIs err GoError.VulnerabilitiesFoundErr = true →
          code = 1 ∧ diagnostics st.log = []) ∧
        (errorsIs err GoError.VulnerabilitiesFoundErr = false →
          errorsIs err GoError.NoPackagesFoundErr = true →
          code = 128 ∧ diagnostics st.log
            = ["No package sources found, --help for usage information.\n"]) ∧
        (errorsIs err GoError.VulnerabilitiesFoundErr = false →
          errorsIs err GoError.NoPackagesFoundErr = false →
          code = 127 ∧ diagnostics st.log = [err.Error env ++ "\n"]))) := by
  obtain ⟨e, s1, happ, hdiag, hr, hexited⟩ := appRun_init env cl
  cases e with
  | exited status =>
    obtain ⟨hs1, ctx, name, rest, hcl, hh, hv, hf, hargs, hn, hc⟩ := hexited status rfl
    subst hs1
    exact Or.inl ⟨status, ctx, name, rest, hcl, hh, hv, hf, hargs, hn, hc, happ,
      run_of_appRun_exited env cl status _ happ⟩
  | returned res =>
    right
    have hens : diagnostics (ensureReporter s1).log = [] := by
      rcases hr with ⟨hnone, hlog⟩ | ⟨rep, hsome, _⟩
      · simp [ensureReporter_of_none s1 hnone, hlog, diagnostics]
      · rw [ensureReporter_of_some s1 rep hsome]; exact hdiag
    cases res with
    | none =>
      refine ⟨none, s1, 0, s1, happ, run_of_appRun_returned env cl none s1 0 s1 happ rfl,
        by simp, fun _ => hdiag, ?_⟩
      intro err h; exact absurd h (by simp)
    | some err =>
      have hex := exitStatus_some env err s1
      cases hV : errorsIs err GoError.VulnerabilitiesFoundErr <;>
        cases hN : errorsIs err GoError.NoPackagesFoundErr <;>
        simp only [hV, hN, Bool.false_eq_true, if_false, if_true] at hex <;>
        refine ⟨some err, s1, _, _, happ,
          run_of_appRun_returned env cl (some err) s1 _ _ happ hex, by simp, by simp, ?_⟩ <;>
        intro err2 h2 <;>
        obtain rfl : err = err2 := by simpa using h2
      all_goals
        simp only [hV, hN]
        simp [hens, diagnostics, State.emit, List.filterMap_append]
        try simpa [diagnostics] using hens

/-- C6, applied to a scan that fails with an error other than the sentinels
(`run` returns 127 and writes one diagnostic) and to `help foo`, where the
library ends the process with status 3. -/
theorem C6_exit_status_mapping_witness :
    run (exampleEnv (some (GoError.errorString "scan failed")) none) (.parsed emptyContext)
      = some (Ending.returned 127,
          { r := some { id := 0, format := "table" },
            log := [Event.NewReporter { id := 0, format := "table" },
              Event.DoScan (scannerActions emptyContext) { id := 0, format := "table" },
              Event.PrintResult { id := 0, format := "table" } { Results := [] },
              Event.PrintError { id := 0, format := "table" } "scan failed\n"] }) ∧
    run (exampleEnv none none) (.parsed { emptyContext with args := ["help", "foo"] })
      = some (Ending.exited 3, State.init) ∧
    ((∃ status,
        run (exampleEnv (some (GoError.errorString "scan failed")) none)
          (.parsed emptyContext) = some (Ending.exited status, State.init)) ∨
      (∃ res s1 code st,
        appRun (exampleEnv (some (GoError.errorString "scan failed")) none)
          (.parsed emptyContext) State.init = some (Ending.returned res, s1) ∧
        run (exampleEnv (some (GoError.errorString "scan failed")) none)
          (.parsed emptyContext) = some (Ending.returned code, st) ∧
        (code = 0 ↔ res = none))) :=
  ⟨by decide, by decide,
    (C6_exit_status_mapping (exampleEnv (some (GoError.errorString "scan failed")) none)
      (.parsed emptyContext)).imp
      (fun ⟨status, _, _, _, _, _, _, _, _, _, _, _, h⟩ => ⟨status, h⟩)
      (fun ⟨res, s1, code, st, h1, h2, h3, _⟩ => ⟨res, s1, code, st, h1, h2, h3⟩)⟩

/-! ## C7: the result is rendered once, after the scan -/

/-- C7: in every invocation that reaches the app `Action`, `run` returns and its
effects start with the construction of the reporter, then the call of `DoScan`,
then one call of `PrintResult` on the result `DoScan` returned; nothing that
follows renders again. That holds whatever error `DoScan` returned. -/
theorem C7_result_rendered_once (env : Env) (ctx : Context) (hreach : reachesAction ctx) :
    ∃ code st rest,
      run env (.parsed ctx) = some (Ending.returned code, st) ∧
      st.log = [Event.NewReporter (actionReporter ctx State.init),
        Event.DoScan (scannerActions ctx) (actionReporter ctx State.init),
        Event.PrintResult (actionReporter ctx State.init)
          (scanOutcome env ctx State.init).1] ++ rest ∧
      renderings rest = [] ∧
      renderings st.log = [(scanOutcome env ctx State.init).1] := by
  cases hres : (match renderOutcome env ctx State.init with
      | some e => some (GoError.wrapError ("failed to write output: " ++ e.Error env) e)
      | none => (scanOutcome env ctx State.init).2) with
  | none =>
    exact ⟨0, _, [], run_of_reachesAction env ctx hreach 0 _ (by rw [hres]; rfl),
      by simp, by simp [renderings], by simp [renderings]⟩
  | some err =>
    have hex := exitStatus_some_of_reporter env err
      { r := some (actionReporter ctx State.init),
        log := [Event.NewReporter (actionReporter ctx State.init),
          Event.DoScan (scannerActions ctx) (actionReporter ctx State.init),
          Event.PrintResult (actionReporter ctx State.init)
            (scanOutcome env ctx State.init).1] }
      (actionReporter ctx State.init) rfl
    rw [← hres] at hex
    cases hV : errorsIs err GoError.VulnerabilitiesFoundErr
    · cases hN : errorsIs err GoError.NoPackagesFoundErr
      · simp only [hV, hN, Bool.false_eq_true, if_false] at hex
        exact ⟨_, _, [Event.PrintError (actionReporter ctx State.init)
            (err.Error env ++ "\n")], run_of_reachesAction env ctx hreach _ _ hex,
          by simp [State.emit], by simp [renderings], by simp [State.emit, renderings]⟩
      · simp only [hV, hN, Bool.false_eq_true, if_false, if_true] at hex
        exact ⟨_, _, [Event.PrintError (actionReporter ctx State.init)
            "No package sources found, --help for usage information.\n"],
          run_of_reachesAction env ctx hreach _ _ hex,
          by simp [State.emit], by simp [renderings], by simp [State.emit, renderings]⟩
    · simp only [hV, if_true] at hex
      exact ⟨_, _, [], run_of_reachesAction env ctx hreach _ _ hex,
        by simp, by simp [renderings], by simp [renderings]⟩

/-- C7, applied to a scan that ends with an error other than the sentinels. -/
theorem C7_result_rendered_once_witness :
    reachesAction emptyContext ∧
    ∃ code st rest,
      run (exampleEnv (some (GoError.errorString "scan failed")) none)
        (.parsed emptyContext) = some (Ending.returned code, st) ∧
      st.log = [Event.NewReporter (actionReporter emptyContext State.init),
        Event.DoScan (scannerActions emptyContext) (actionReporter emptyContext State.init),
        Event.PrintResult (actionReporter emptyContext State.init)
          (scanOutcome (exampleEnv (some (GoError.errorString "scan failed")) none)
            emptyContext State.init).1] ++ rest ∧
      renderings rest = [] ∧
      renderings st.log
        = [(scanOutcome (exampleEnv (some (GoError.errorString "scan failed")) none)
            emptyContext State.init).1] :=
  ⟨by decide,
    C7_result_rendered_once (exampleEnv (some (GoError.errorString "scan failed")) none)
      emptyContext (by decide)⟩

/-! ## C8: the scan request -/

/-- C8 (as stated, refuted): the claim says the request carries the lists
exactly as supplied on the command line. With `--lockfile a,b` one value is
supplied; the slice flag of the library holds the two values "a" and "b", and
the request handed to `DoScan` carries these two paths. -/
theorem C8_counterexample :
    stringSliceValues ["a,b"] = ["a", "b"] ∧
    reachesAction { emptyContext with lockfile := stringSliceValues ["a,b"] } ∧
    run (exampleEnv none none)
        (.parsed { emptyContext with lockfile := stringSliceValues ["a,b"] })
      = some (Ending.returned 0,
          { r := some { id := 0, format := "table" },
            log := [Event.NewReporter { id := 0, format := "table" },
              Event.DoScan
                { LockfilePaths := ["a", "b"], SBOMPaths := [], DockerContainerNames := [],
                  Recursive := false, SkipGit := false, ConfigOverridePath := "",
                  DirectoryPaths := [] }
                { id := 0, format := "table" },
              Event.PrintResult { id := 0, format := "table" } { Results := [] }] }) ∧
    ¬ (∀ (env : Env) (ctx : Context) (supplied : List String),
        ctx.lockfile = stringSliceValues supplied → reachesAction ctx →
        ∀ code st, run env (.parsed ctx) = some (Ending.returned code, st) →
          ∀ req ∈ scans st.log, req.LockfilePaths = supplied) := by
  have hrun : run (exampleEnv none none)
      (.parsed { emptyContext with lockfile := stringSliceValues ["a,b"] })
      = some (Ending.returned 0,
          { r := some { id := 0, format := "table" },
            log := [Event.NewReporter { id := 0, format := "table" },
              Event.DoScan
                { LockfilePaths := ["a", "b"], SBOMPaths := [], DockerContainerNames := [],
                  Recursive := false, SkipGit := false, ConfigOverridePath := "",
                  DirectoryPaths := [] }
                { id := 0, format := "table" },
              Event.PrintResult { id := 0, format := "table" } { Results := [] }] }) := by
    decide
  refine ⟨by decide, by decide, hrun, ?_⟩
  intro h
  have h1 := h (exampleEnv none none)
    { emptyContext with lockfile := stringSliceValues ["a,b"] } ["a,b"] rfl (by decide)
    _ _ hrun
    { LockfilePaths := ["a", "b"], SBOMPaths := [], DockerContainerNames := [],
      Recursive := false, SkipGit := false, ConfigOverridePath := "",
      DirectoryPaths := [] } (by simp [scans])
  exact absurd h1 (by decide)

/-- C8 (amended): every request `run` hands to `DoScan` carries the lockfile,
sbom and docker lists, the positional arguments, the recursive and skip-git
booleans and the config path as the parsed command line holds them (what
`context.StringSlice`, `context.Args`, `context.Bool` and `context.String`
return), each in its own field, with the same elements in the same order and
multiplicity; in an invocation that reaches the app `Action`, `DoScan` is
invoked exactly once, with that request. -/
theorem C8_scan_request_verbatim (env : Env) (ctx : Context) :
    (∃ e st, run env (.parsed ctx) = some (e, st) ∧
      ∀ req ∈ scans st.log,
        req.LockfilePaths = ctx.lockfile ∧ req.SBOMPaths = ctx.sbom ∧
        req.DockerContainerNames = ctx.docker ∧ req.DirectoryPaths = ctx.args ∧
        req.Recursive = ctx.recursive ∧ req.SkipGit = ctx.skipGit ∧
        req.ConfigOverridePath = ctx.config) ∧
    (reachesAction ctx → ∃ code st, run env (.parsed ctx) = some (Ending.returned code, st) ∧
      scans st.log = [scannerActions ctx]) := by
  have hreached : reachesAction ctx →
      ∃ code st, run env (.parsed ctx) = some (Ending.returned code, st) ∧
        scans st.log = [scannerActions ctx] := by
    intro hreach
    obtain ⟨code, st, hst, hsc⟩ := exitStatus_scans env
      (match renderOutcome env ctx State.init with
        | some e => some (GoError.wrapError ("failed to write output: " ++ e.Error env) e)
        | none => (scanOutcome env ctx State.init).2)
      { r := some (actionReporter ctx State.init),
        log := [Event.NewReporter (actionReporter ctx State.init),
          Event.DoScan (scannerActions ctx) (actionReporter ctx State.init),
          Event.PrintResult (actionReporter ctx State.init)
            (scanOutcome env ctx State.init).1] }
    exact ⟨code, st, run_of_reachesAction env ctx hreach code st hst,
      by rw [hsc]; simp [scans]⟩
  refine ⟨?_, hreached⟩
  by_cases hreach : reachesAction ctx
  · obtain ⟨code, st, hst, hsc⟩ := hreached hreach
    refine ⟨_, st, hst, ?_⟩
    intro req hreq
    rw [hsc] at hreq
    obtain rfl : req = scannerActions ctx := by simpa using hreq
    exact ⟨rfl, rfl, rfl, rfl, rfl, rfl, rfl⟩
  · obtain ⟨e, s1, happ, hs1⟩ := appRun_scans_of_not_reachesAction env ctx hreach
    cases e with
    | exited status =>
      refine ⟨_, s1, run_of_appRun_exited env _ status s1 happ, ?_⟩
      intro req hreq
      rw [hs1] at hreq
      exact absurd hreq (by simp)
    | returned res =>
      obtain ⟨code, st, hst, hsc⟩ := exitStatus_scans env res s1
      refine ⟨_, st, run_of_appRun_returned env _ res s1 code st happ hst, ?_⟩
      intro req hreq
      rw [hsc, hs1] at hreq
      exact absurd hreq (by simp)

/-- C8 (amended), applied to a command line with repeated, unsorted values: the
request keeps order and repetitions. -/
theorem C8_scan_request_verbatim_witness :
    reachesAction repeatedContext ∧
    ∃ code st, run (exampleEnv none none) (.parsed repeatedContext)
        = some (Ending.returned code, st) ∧
      scans st.log =
        [{ LockfilePaths := ["b.lock", "a.lock", "b.lock"]
           SBOMPaths := ["s.json", "s.json"]
           DockerContainerNames := ["img:2", "img:1", "img:2"]
           Recursive := true
           SkipGit := true
           ConfigOverridePath := "./cfg.toml"
           DirectoryPaths := ["./z", "./a", "./z"] }] :=
  ⟨by decide, (C8_scan_request_verbatim (exampleEnv none none) repeatedContext).2 (by decide)⟩

/-! ## C9: the reporter that prints a diagnostic -/

/-- C9: no call of `run` goes through a `nil` reporter. Either the library ends
the process inside `app.Run` (a failing built-in help command), and then nothing
was printed or constructed; or `run` returns, and whenever it printed a
diagnostic, the reporter that printed it is the value of `r` and is the only
reporter constructed during the run: if `app.Run` left `r` `nil`, it is
constructed with mode "" right before the diagnostic; if `app.Run` left a
reporter in `r`, that reporter prints and none is constructed after it. -/
theorem C9_diagnostic_reporter (env : Env) (cl : CommandLine) :
    (∃ status, appRun env cl State.init = some (Ending.exited status, State.init) ∧
      run env cl = some (Ending.exited status, State.init)) ∨
    (∃ res s1 code st,
      appRun env cl State.init = some (Ending.returned res, s1) ∧
      run env cl = some (Ending.returned code, st) ∧
      ∀ rep msg, Event.PrintError rep msg ∈ st.log →
        st.r = some rep ∧ reporters st.log = [rep] ∧
        (s1.r = none → rep.format = "" ∧
          st.log = s1.log ++ [Event.NewReporter rep, Event.PrintError rep msg]) ∧
        (∀ r0, s1.r = some r0 →
          rep = r0 ∧ st.log = s1.log ++ [Event.PrintError rep msg])) := by
  obtain ⟨e, s1, happ, hdiag, hr, hexited⟩ := appRun_init env cl
  cases e with
  | exited status =>
    obtain ⟨hs1, _⟩ := hexited status rfl
    subst hs1
    exact Or.inl ⟨status, happ, run_of_appRun_exited env cl status _ happ⟩
  | returned res =>
    right
    have hno : ∀ rep msg, Event.PrintError rep msg ∉ s1.log := by
      intro rep msg hmem
      have := mem_diagnostics_of_mem s1.log rep msg hmem
      rw [hdiag] at this
      exact absurd this (by simp)
    cases res with
    | none =>
      refine ⟨none, s1, 0, s1, happ, run_of_appRun_returned env cl none s1 0 s1 happ rfl, ?_⟩
      intro rep msg hmem
      exact absurd hmem (hno rep msg)
    | some err =>
      rcases hr with ⟨hnone, hlog⟩ | ⟨r0, hsome, hreps⟩
      · have hex := exitStatus_some env err s1
        rw [ensureReporter_of_none s1 hnone, hnone] at hex
        cases hV : errorsIs err GoError.VulnerabilitiesFoundErr <;>
          cases hN : errorsIs err GoError.NoPackagesFoundErr <;>
          simp only [hV, hN, Bool.false_eq_true, if_false, if_true] at hex <;>
          refine ⟨some err, s1, _, _, happ,
            run_of_appRun_returned env cl (some err) s1 _ _ happ hex, ?_⟩ <;>
          intro rep msg hmem <;>
          simp [hlog, State.emit] at hmem
        all_goals
          obtain ⟨rfl, rfl⟩ := hmem
          simp [hlog, hnone, State.emit, reporters]
      · have hex := exitStatus_some_of_reporter env err s1 r0 hsome
        cases hV : errorsIs err GoError.VulnerabilitiesFoundErr <;>
          cases hN : errorsIs err GoError.NoPackagesFoundErr <;>
          simp only [hV, hN, Bool.false_eq_true, if_false, if_true] at hex <;>
          refine ⟨some err, s1, _, _, happ,
            run_of_appRun_returned env cl (some err) s1 _ _ happ hex, ?_⟩ <;>
          intro rep msg hmem
        · simp [State.emit, hno] at hmem
          obtain ⟨rfl, rfl⟩ := hmem
          simp [hsome, State.emit, reporters, List.filterMap_append]
          simpa [reporters] using hreps
        · simp [State.emit, hno] at hmem
          obtain ⟨rfl, rfl⟩ := hmem
          simp [hsome, State.emit, reporters, List.filterMap_append]
          simpa [reporters] using hreps
        · exact absurd hmem (hno rep msg)
        · exact absurd hmem (hno rep msg)

/-- C9, applied to a command line the library rejects: the fallback reporter of
mode "" is constructed and prints the diagnostic. -/
theorem C9_diagnostic_reporter_witness :
    run (exampleEnv none none)
        (.usageError (GoError.errorString "flag provided but not defined: -x"))
      = some (Ending.returned 127,
          { r := some { id := 0, format := "" },
            log := [Event.NewReporter { id := 0, format := "" },
              Event.PrintError { id := 0, format := "" }
                "flag provided but not defined: -x\n"] }) ∧
    ((∃ status,
        appRun (exampleEnv none none)
          (.usageError (GoError.errorString "flag provided but not defined: -x")) State.init
          = some (Ending.exited status, State.init) ∧
        run (exampleEnv none none)
          (.usageError (GoError.errorString "flag provided but not defined: -x"))
          = some (Ending.exited status, State.init)) ∨
      (∃ res s1 code st,
        appRun (exampleEnv none none)
          (.usageError (GoError.errorString "flag provided but not defined: -x")) State.init
          = some (Ending.returned res, s1) ∧
        run (exampleEnv none none)
          (.usageError (GoError.errorString "flag provided but not defined: -x"))
          = some (Ending.returned code, st) ∧
        ∀ rep msg, Event.PrintError rep msg ∈ st.log →
          st.r = some rep ∧ reporters st.log = [rep] ∧
          (s1.r = none → rep.format = "" ∧
            st.log = s1.log ++ [Event.NewReporter rep, Event.PrintError rep msg]) ∧
          (∀ r0, s1.r = some r0 →
            rep = r0 ∧ st.log = s1.log ++ [Event.PrintError rep msg]))) :=
  ⟨by decide,
    C9_diagnostic_reporter (exampleEnv none none)
      (.usageError (GoError.errorString "flag provided but not defined: -x"))⟩

/-! ## C10: the text of the unsupported-format diagnostic -/

/-- C10: for every string `s` other than "table" and "json", the error returned
by the `--format` check has the text
`unsupported output format "s" - must be either "table" or "json"`, and when the
check runs (`--format s` supplied, neither help nor version asked for) `run`
returns 127 and the one diagnostic written is that text followed by a newline. -/
theorem C10_unsupported_format_message (env : Env) (ctx : Context) (s : String)
    (hs : s ≠ "table" ∧ s ≠ "json") :
    formatAction s = some (GoError.errorString
      ("unsupported output format \"" ++ s ++ "\" - must be either \"table\" or \"json\"")) ∧
    (ctx.format = some s → ctx.help = false → ctx.version = false →
      ∃ st, run env (.parsed ctx) = some (Ending.returned 127, st) ∧
        diagnostics st.log =
          ["unsupported output format \"" ++ s
            ++ "\" - must be either \"table\" or \"json\"" ++ "\n"]) := by
  have hact := formatAction_of_unsupported s hs
  refine ⟨hact, ?_⟩
  intro hf hh hv
  have hflag : runFlagActions ctx = some (GoError.errorString (unsupportedFormatText s)) := by
    simp [runFlagActions, hf, hact]
  have happ : appRun env (.parsed ctx) State.init
      = some (Ending.returned (some (GoError.errorString (unsupportedFormatText s))),
          State.init) := by
    simp [appRun, hh, hv, hflag]
  have hex := exitStatus_some env (GoError.errorString (unsupportedFormatText s)) State.init
  simp only [errorsIs, decide_False, Bool.false_eq_true, if_false] at hex
  have hrun := run_of_appRun_returned env _ _ State.init _ _ happ hex
  exact ⟨_, hrun, by
    simp [ensureReporter, State.init, assignNewReporter, diagnostics, State.emit,
      GoError.Error, unsupportedFormatText]⟩

/-- C10, applied to `--format=xml`: the diagnostic names "xml". -/
theorem C10_unsupported_format_message_witness :
    ("xml" ≠ "table" ∧ "xml" ≠ "json") ∧
    formatAction "xml" = some (GoError.errorString
      "unsupported output format \"xml\" - must be either \"table\" or \"json\"") ∧
    ∃ st, run (exampleEnv none none) (.parsed { emptyContext with format := some "xml" })
        = some (Ending.returned 127, st) ∧
      diagnostics st.log =
        ["unsupported output format \"xml\" - must be either \"table\" or \"json\"\n"] :=
  ⟨by decide,
    (C10_unsupported_format_message (exampleEnv none none)
      { emptyContext with format := some "xml" } "xml" (by decide)).1,
    (C10_unsupported_format_message (exampleEnv none none)
      { emptyContext with format := some "xml" } "xml" (by decide)).2 rfl rfl rfl⟩

end OsvScanner
